import Mathlib

/-!
Formal model of the rekords-api core: the order-settlement handler
(`handleCheckoutSessionCompleted` in `src/routes/cartRoutes.js` /
`webhookService`), the Discogs catalog reconciler
(`syncDiscogsInventory` in `src/services/inventoryService.js`, final
revision), and the cart engine (`cartService.js`: `mergeCart`).

Ids (cuid strings and Discogs BigInt ids) are modelled as `Nat`;
quantities as `Int` (JavaScript numbers used as integers); prices as
`Int` in integral currency units (the schema stores a `Float`, and no
verified property depends on fractional prices).  Database tables are
lists of rows, a transaction is a pure function from the database to
the database that is discarded entirely on error (rollback), and
remote Discogs calls are recorded as a trace of attempted operations
whose outcomes are drawn from an oracle environment.
-/

namespace Rekords

/-- Status enum of the `Record` model in `prisma/schema.prisma`. -/
inductive RecordStatus
  | FOR_SALE
  | SOLD
  | DRAFT
deriving DecidableEq, Repr

/-- One row of the `Record` table (the mirrored Discogs listing).
Fields not read by any modelled code path (label, year, format,
genre/style arrays, weight, timestamps) are elided.  The `userId`
field is read by the cart engine (`record.userId === userId`): the
schema has no such column, so it is modelled as an `Option` that is
`none` on real rows, keeping the comparison the code performs. -/
structure Record where
  id : Nat
  title : String
  artist : String
  price : Int
  condition : String
  sleeveCondition : Option String
  notes : Option String
  location : Option String
  coverImage : Option String
  quantity : Int
  status : RecordStatus
  discogsListingId : Option Nat
  discogsReleaseId : Option Nat
  userId : Option Nat
deriving DecidableEq, Repr

/-- Status enum of the `Order` model. -/
inductive OrderStatus
  | PENDING
  | PAID
  | SHIPPED
  | CANCELLED
  | REFUNDED
deriving DecidableEq, Repr

/-- One row of the `Order` table.  `stripeCheckoutId` is the unique
idempotency key (`@unique` in the schema). -/
structure Order where
  id : Nat
  userId : Option Nat
  stripeCheckoutId : Option String
  stripePaymentIntentId : Option String
  status : OrderStatus
  totalAmount : Int
  currency : String
  customerName : String
  customerEmail : String
deriving DecidableEq, Repr

/-- One row of the `OrderItem` table: the immutable snapshot taken at
settlement time (row id elided). -/
structure OrderItem where
  orderId : Nat
  recordId : Nat
  title : String
  artist : String
  price : Int
  quantity : Int
deriving DecidableEq, Repr

/-- One row of the `Cart` table. -/
structure Cart where
  id : Nat
  userId : Nat
deriving DecidableEq, Repr

/-- One row of the `CartItem` table (row id and timestamps elided; a
cart item is addressed by its unique `(cartId, recordId)` pair). -/
structure CartItem where
  cartId : Nat
  recordId : Nat
  quantity : Int
deriving DecidableEq, Repr

/-- The relational store: one list per table touched by the core. -/
structure Db where
  records : List Record
  orders : List Order
  orderItems : List OrderItem
  carts : List Cart
  cartItems : List CartItem
deriving DecidableEq, Repr

/-- Lookup of a record by primary key (`tx.record.findUnique`). -/
def findRecord (rs : List Record) (rid : Nat) : Option Record :=
  rs.find? (fun r => r.id == rid)

/-- Row update by primary key (`tx.record.update`): applies `f` to the
row(s) with the given id. -/
def updateRecord (rs : List Record) (rid : Nat) (f : Record → Record) : List Record :=
  rs.map (fun r => if r.id == rid then f r else r)

/-- Payload of the relist call `POST /marketplace/listings` built in
`handleCheckoutSessionCompleted` (`addListingPayload`).  It carries
release id, condition, sleeve condition, price, the constant status
string and the comments; it has no quantity field. -/
structure AddListingPayload where
  releaseId : Option Nat
  condition : String
  sleeveCondition : Option String
  price : Int
  saleStatus : String
  comments : Option String
deriving DecidableEq, Repr

/-- Builds the relist payload from the local record exactly as the
handler does. -/
def mkAddListingPayload (r : Record) : AddListingPayload :=
  { releaseId := r.discogsReleaseId
    condition := r.condition
    sleeveCondition := r.sleeveCondition
    price := r.price
    saleStatus := "For Sale"
    comments := r.notes }

/-- Modelled from the spec: the remote marketplace is an external
collaborator not under `src/`.  A listing created by the relist call
carries no quantity field, and the handler itself logs that the
replacement is created with implicit quantity 1 ("Relisting item for
Release ID ... (implicit quantity 1)").  This function gives the
quantity of the remote listing that a given payload creates. -/
def implicitListingQuantity (_p : AddListingPayload) : Int := 1

/-- A remote Discogs marketplace call attempted during settlement,
with its outcome. -/
inductive DiscogsOp
  | deleteAttempt (listingId : Nat) (ok : Bool)
  | createAttempt (payload : AddListingPayload) (result : Option Nat)
deriving DecidableEq, Repr

/-- Oracle for the remote side of settlement: whether the Discogs
client initialises, whether a delete of a given listing succeeds, and
what a relist for a given release id returns (`none` models both a
failed POST and a response missing `listing_id`). -/
structure DiscogsEnv where
  clientOk : Bool
  deleteOk : Nat → Bool
  relist : Option Nat → Option Nat

/-- The fields of the Stripe Checkout Session object read by the
settlement handler. -/
structure StripeSession where
  id : String
  userId : Option Nat
  cartId : Option Nat
  paymentIntentId : Option String
  amountTotal : Int
  currency : String
  customerName : Option String
  customerEmail : Option String

/-- A Stripe line item as read by the handler: the purchased quantity
and the `dbRecordId` stored in the expanded product metadata. -/
structure StripeLineItem where
  quantity : Int
  dbRecordId : Option Nat
deriving DecidableEq, Repr

/-- In-transaction state threaded through the per-line-item loop. -/
structure TxState where
  records : List Record
  orderItems : List OrderItem
  ops : List DiscogsOp

/-- Body of the per-line-item loop of `handleCheckoutSessionCompleted`
(lines 123-290): validate the line item against a fresh read of the
record, snapshot an `OrderItem`, decrement quantity / transition
status, then perform the Discogs delete(+relist).  Discogs failures
never abort: the delete failure in the relist branch is logged and the
relist attempted anyway, and every error raised inside the Discogs
block — including the `throw addError` after a failed relist — is
caught by the enclosing `catch (discogsError)` which only logs a
warning, so the loop continues. -/
def settleLineItem (env : DiscogsEnv) (orderId : Nat) (st : TxState)
    (item : StripeLineItem) : Except String TxState :=
  match item.dbRecordId with
  | none => Except.error "Missing dbRecordId metadata for line item"
  | some rid =>
    match findRecord st.records rid with
    | none => Except.error "Failed to find record"
    | some record =>
      if record.status ≠ RecordStatus.FOR_SALE then
        Except.error "Record was not FOR_SALE post-payment"
      else if record.quantity < item.quantity then
        Except.error "Insufficient stock post-payment"
      else
        let snapshot : OrderItem :=
          { orderId := orderId
            recordId := record.id
            title := record.title
            artist := record.artist
            price := 100 * record.price
            quantity := item.quantity }
        let newQuantity := record.quantity - item.quantity
        let newStatus :=
          if newQuantity ≤ 0 then RecordStatus.SOLD else RecordStatus.FOR_SALE
        let st1 : TxState :=
          { records :=
              updateRecord st.records record.id
                (fun r => { r with quantity := newQuantity, status := newStatus })
            orderItems := st.orderItems ++ [snapshot]
            ops := st.ops }
        if env.clientOk then
          match record.discogsListingId with
          | some listingId =>
            if newQuantity > 0 then
              let delOk := env.deleteOk listingId
              let payload := mkAddListingPayload record
              match env.relist record.discogsReleaseId with
              | some newListingId =>
                Except.ok
                  { records :=
                      updateRecord st1.records record.id
                        (fun r => { r with discogsListingId := some newListingId })
                    orderItems := st1.orderItems
                    ops := st1.ops ++
                      [DiscogsOp.deleteAttempt listingId delOk,
                       DiscogsOp.createAttempt payload (some newListingId)] }
              | none =>
                Except.ok
                  { st1 with
                    ops := st1.ops ++
                      [DiscogsOp.deleteAttempt listingId delOk,
                       DiscogsOp.createAttempt payload none] }
            else
              Except.ok
                { st1 with
                  ops := st1.ops ++
                    [DiscogsOp.deleteAttempt listingId (env.deleteOk listingId)] }
          | none => Except.ok st1
        else Except.ok st1

/-- The per-line-item loop: stops at the first validation error,
returning the state reached so far (whose remote-call trace has
already happened even though the database part is rolled back). -/
def settleLineItems (env : DiscogsEnv) (orderId : Nat) :
    TxState → List StripeLineItem → Except TxState TxState
  | st, [] => Except.ok st
  | st, item :: rest =>
    match settleLineItem env orderId st item with
    | Except.error _ => Except.error st
    | Except.ok st2 => settleLineItems env orderId st2 rest

/-- Idempotency guard: does an `Order` row for this checkout/session
identifier already exist? -/
def sessionHasOrder (db : Db) (checkoutId : String) : Bool :=
  db.orders.any (fun o => o.stripeCheckoutId == some checkoutId)

/-- Fresh order id (cuid generation abstracted). -/
def freshOrderId (db : Db) : Nat := db.orders.length

/-- The `Order` row the settlement transaction creates
(`tx.order.create`, status PAID, keyed by the checkout id). -/
def mkOrder (db : Db) (s : StripeSession) (userId : Nat) : Order :=
  { id := freshOrderId db
    userId := some userId
    stripeCheckoutId := some s.id
    stripePaymentIntentId := s.paymentIntentId
    status := OrderStatus.PAID
    totalAmount := s.amountTotal
    currency := s.currency.toUpper
    customerName := (s.customerName).getD "N/A"
    customerEmail := (s.customerEmail).getD "N/A" }

/-- Cart clearing at the end of the transaction: the items of the
buyer's cart are deleted, the cart row is kept. -/
def clearUserCartItems (db : Db) (userId : Nat) : List CartItem :=
  match db.carts.find? (fun c => c.userId == userId) with
  | some cart => db.cartItems.filter (fun ci => ci.cartId != cart.id)
  | none => db.cartItems

/-- Overall result of the settlement handler: `completed` commits the
transaction, `earlyReturn` acknowledges the event without doing
anything, `errored` means the transaction rolled back and the error
was rethrown to the webhook endpoint. -/
inductive HandleResult
  | completed
  | earlyReturn
  | errored
deriving DecidableEq, Repr

/-- Final state of a settlement run: the database after the handler,
the trace of attempted remote calls, and how the handler returned. -/
structure SettleOutcome where
  db : Db
  ops : List DiscogsOp
  result : HandleResult
deriving Repr

/-- The `checkout.session.completed` handler
(`handleCheckoutSessionCompleted`): missing `userId` metadata returns
early; an existing order for the checkout id returns early
(idempotency); missing or empty line items return early; otherwise one
transaction creates the order, settles every line item, clears the
buyer's cart and commits — or rolls the database back entirely and
reports the error.  `fetchedLineItems = none` models a failed
`listLineItems` call. -/
def handleCheckoutSessionCompleted (env : DiscogsEnv) (session : StripeSession)
    (fetchedLineItems : Option (List StripeLineItem)) (db : Db) : SettleOutcome :=
  match session.userId with
  | none => { db := db, ops := [], result := HandleResult.earlyReturn }
  | some userId =>
    if sessionHasOrder db session.id then
      { db := db, ops := [], result := HandleResult.earlyReturn }
    else
      match fetchedLineItems with
      | none => { db := db, ops := [], result := HandleResult.earlyReturn }
      | some [] => { db := db, ops := [], result := HandleResult.earlyReturn }
      | some (item :: rest) =>
        let order : Order := mkOrder db session userId
        let st0 : TxState := { records := db.records, orderItems := db.orderItems, ops := [] }
        match settleLineItems env order.id st0 (item :: rest) with
        | Except.error stFail =>
          { db := db, ops := stFail.ops, result := HandleResult.errored }
        | Except.ok st1 =>
          { db :=
              { records := st1.records
                orders := order :: db.orders
                orderItems := st1.orderItems
                carts := db.carts
                cartItems := clearUserCartItems db userId }
            ops := st1.ops
            result := HandleResult.completed }

/-- HTTP status the webhook endpoint (`handleStripeWebhook`, lines
45-57 of `webhookController.js`) returns for a settlement outcome: 200
acknowledges the event, 500 is returned when the handler rethrows so
that the event source retries. -/
def webhookResponseStatus (out : SettleOutcome) : Nat :=
  if out.result = HandleResult.errored then 500 else 200

/-- Number of orders stored for a given checkout identifier. -/
def ordersForCheckout (db : Db) (checkoutId : String) : Nat :=
  (db.orders.filter (fun o => o.stripeCheckoutId == some checkoutId)).length

/-!
Catalog reconciler (`syncDiscogsInventory`, final revision of
`src/services/inventoryService.js`).  The remote fetch is modelled as
an oracle giving each page's result; the delta computation is modelled
over the database lists.
-/

/-- One image attached to a Discogs release. -/
structure DiscogsImage where
  imgType : String
  resourceUrl : Option String
  uri : Option String
deriving DecidableEq, Repr

/-- The release object embedded in a Discogs marketplace listing; a
release id of 0 models the falsy `release.id` the mapping skips. -/
structure DiscogsRelease where
  id : Nat
  title : String
  artist : String
  coverImage : Option String
  thumbnail : Option String
  images : List DiscogsImage
deriving DecidableEq, Repr

/-- A remote Discogs marketplace listing as fetched from the
inventory endpoint (fields the reconciler reads). -/
structure Listing where
  id : Nat
  release : Option DiscogsRelease
  price : Option Int
  condition : String
  sleeveCondition : Option String
  comments : Option String
  location : Option String
deriving DecidableEq, Repr

/-- Derivation of the cover image used by the mapping: primary image
resource url, else primary image uri, else release cover image, else
thumbnail. -/
def deriveCoverImage (rel : DiscogsRelease) : Option String :=
  ((rel.images.find? (fun i => i.imgType == "primary")).bind (fun i => i.resourceUrl))
    <|> ((rel.images.find? (fun i => i.imgType == "primary")).bind (fun i => i.uri))
    <|> rel.coverImage <|> rel.thumbnail

/-- The normalized payload (`recordData`) the reconciler builds for
each listing (timestamps and the constant FOR_SALE status elided from
the structure; the status comparison is against the constant). -/
structure RecordData where
  discogsReleaseId : Nat
  discogsListingId : Nat
  title : String
  artist : String
  coverImage : Option String
  price : Int
  condition : String
  sleeveCondition : Option String
  notes : Option String
  location : Option String
deriving DecidableEq, Repr

/-- Maps one fetched listing to its payload, or `none` when release or
price data is missing (counted as a mapping error). -/
def mapListing (l : Listing) : Option RecordData :=
  match l.release with
  | none => none
  | some rel =>
    if rel.id == 0 then none
    else
      match l.price with
      | none => none
      | some p =>
        some
          { discogsReleaseId := rel.id
            discogsListingId := l.id
            title := rel.title
            artist := rel.artist
            coverImage := deriveCoverImage rel
            price := p
            condition := l.condition
            sleeveCondition := l.sleeveCondition
            notes := l.comments
            location := l.location }

/-- Insertion-ordered map update (JavaScript `Map.set`): an existing
key keeps its position, a new key is appended. -/
def mapSet (m : List (Nat × RecordData)) (k : Nat) (v : RecordData) :
    List (Nat × RecordData) :=
  if m.any (fun p => p.1 == k) then
    m.map (fun p => if p.1 == k then (k, v) else p)
  else m ++ [(k, v)]

/-- Builds `currentDataMap` (insertion-ordered) and the mapping-error
count from the fetched listings. -/
def buildCurrentDataMap (listings : List Listing) :
    List (Nat × RecordData) × Nat :=
  listings.foldl
    (fun acc l =>
      match mapListing l with
      | none => (acc.1, acc.2 + 1)
      | some rd => (mapSet acc.1 l.id rd, acc.2))
    ([], 0)

/-- Does any `OrderItem` row reference this record id (the referential
guard queried fresh for each deletion candidate)? -/
def orderItemReferences (ois : List OrderItem) (rid : Nat) : Bool :=
  ois.any (fun oi => oi.recordId == rid)

/-- Set-like insertion into the `idsToDelete` accumulator. -/
def setAdd (s : List Nat) (x : Nat) : List Nat :=
  if s.contains x then s else s ++ [x]

/-- The `existingRecordMap`: FOR_SALE records keyed by their Discogs
listing id, in row order. -/
def buildExistingRecordMap (records : List Record) : List (Nat × Record) :=
  records.foldl
    (fun acc r =>
      match r.discogsListingId with
      | some lid =>
        if acc.any (fun p => p.1 == lid) then
          acc.map (fun p => if p.1 == lid then (lid, r) else p)
        else acc ++ [(lid, r)]
      | none => acc)
    []

/-- Step of the first deletion pass for one `existingRecordMap` entry:
a record whose listing id is absent from the fetched map is marked for
deletion unless referenced by an order item (then the deletion is
skipped and nothing else happens to the record). -/
def staleStep (cur : List (Nat × RecordData)) (ois : List OrderItem)
    (acc : List Nat) (p : Nat × Record) : List Nat :=
  if cur.any (fun q => q.1 == p.1) then acc
  else if orderItemReferences ois p.2.id then acc
  else setAdd acc p.2.id

/-- First deletion pass over the `existingRecordMap`. -/
def staleListingDeletes (em : List (Nat × Record)) (cur : List (Nat × RecordData))
    (ois : List OrderItem) : List Nat :=
  em.foldl (staleStep cur ois) []

/-- Release ids present in the fetched map (computed once, before the
fallback loop mutates the map). -/
def currentReleaseIds (cur : List (Nat × RecordData)) : List Nat :=
  cur.foldl (fun acc p => setAdd acc p.2.discogsReleaseId) []

/-- An entry of `recordsToUpdate`: either the fallback adoption of a
listing onto an orphaned record (`where: { id }`), or a field refresh
of a matched record (`where: { discogsListingId }`). -/
inductive UpdateSpec
  | adopt (recordId : Nat) (d : RecordData)
  | refresh (listingId : Nat) (d : RecordData)
deriving DecidableEq, Repr

/-- Console events emitted by the fallback resolver loop: the only
message it logs is "Found potential match for record ...". -/
inductive SyncLog
  | foundMatch (recordId : Nat) (listingId : Nat)
deriving DecidableEq, Repr

/-- The predicate of the fallback `find`: an unmatched (not in
`existingRecordMap`) fetched listing with the orphaned record's
release id. -/
def adoptPred (existingIds : List Nat) (rec : Record) (p : Nat × RecordData) : Bool :=
  (some p.2.discogsReleaseId == rec.discogsReleaseId) &&
    !(existingIds.contains p.2.discogsListingId)

/-- The loop over `recordsWithoutListingId` (records without a Discogs
listing id): a record whose release id is no longer for sale is marked
for deletion unless referenced by an order item; otherwise the first
currently-unmatched fetched listing with the same release id (in map
insertion order) is adopted onto the record as an update and removed
from the map. -/
def resolveOrphans (ois : List OrderItem) (existingIds : List Nat)
    (releaseIds : List Nat) :
    List Record → List Nat → List UpdateSpec → List (Nat × RecordData) →
      List SyncLog →
      List Nat × List UpdateSpec × List (Nat × RecordData) × List SyncLog
  | [], del, upd, cur, logs => (del, upd, cur, logs)
  | rec :: rest, del, upd, cur, logs =>
    let stillForSale :=
      match rec.discogsReleaseId with
      | some rel => releaseIds.contains rel
      | none => false
    if stillForSale then
      match cur.find? (adoptPred existingIds rec) with
      | some p =>
        resolveOrphans ois existingIds releaseIds rest del
          (upd ++ [UpdateSpec.adopt rec.id p.2])
          (cur.filter (fun q => q.1 != p.2.discogsListingId))
          (logs ++ [SyncLog.foundMatch rec.id p.2.discogsListingId])
      | none => resolveOrphans ois existingIds releaseIds rest del upd cur logs
    else
      if orderItemReferences ois rec.id then
        resolveOrphans ois existingIds releaseIds rest del upd cur logs
      else
        resolveOrphans ois existingIds releaseIds rest (setAdd del rec.id) upd cur logs

/-- Does the matched record differ from the fetched payload in any
compared field (price, condition, sleeve, notes, location, status,
derived image)? -/
def needsUpdate (ex : Record) (rd : RecordData) : Bool :=
  (ex.price != rd.price) || (ex.condition != rd.condition) ||
    (ex.sleeveCondition != rd.sleeveCondition) || (ex.notes != rd.notes) ||
    (ex.location != rd.location) || (ex.status != RecordStatus.FOR_SALE) ||
    (ex.coverImage != rd.coverImage)

/-- Final pass over the (possibly shrunk) fetched map: unmatched
listings are created, matched ones are refreshed when a compared field
differs. -/
def createUpdateSets (em : List (Nat × Record)) (cur : List (Nat × RecordData)) :
    List RecordData × List UpdateSpec :=
  cur.foldl
    (fun acc p =>
      match em.find? (fun q => q.1 == p.1) with
      | none => (acc.1 ++ [p.2], acc.2)
      | some q =>
        if needsUpdate q.2 p.2 then (acc.1, acc.2 ++ [UpdateSpec.refresh p.1 p.2])
        else acc)
    ([], [])

/-- The three delta sets plus the fallback-resolver log. -/
structure SyncDeltas where
  recordsToCreate : List RecordData
  recordsToUpdate : List UpdateSpec
  idsToDelete : List Nat
  logs : List SyncLog
deriving DecidableEq, Repr

/-- Delta computation of the reconciler (steps 1-3 of the refactored
delta sync): FOR_SALE records are read, keyed by listing id, stale
listings checked against the referential guard, orphans resolved via
the release-id fallback, and the remaining fetched map split into
create and update sets. -/
def computeDeltas (db : Db) (cur0 : List (Nat × RecordData)) : SyncDeltas :=
  let existingRecords := db.records.filter (fun r => r.status == RecordStatus.FOR_SALE)
  let em := buildExistingRecordMap existingRecords
  let delA := staleListingDeletes em cur0 db.orderItems
  let relIds := currentReleaseIds cur0
  let orphans := existingRecords.filter (fun r => r.discogsListingId == none)
  let resolved := resolveOrphans db.orderItems (em.map Prod.fst) relIds orphans delA [] cur0 []
  let cu := createUpdateSets em resolved.2.2.1
  { recordsToCreate := cu.1
    recordsToUpdate := resolved.2.1 ++ cu.2
    idsToDelete := resolved.1
    logs := resolved.2.2.2 }

/-- Application of the delete set inside the transaction
(`tx.record.deleteMany({ where: { id: { in: ... } } })`). -/
def applySyncDeletes (records : List Record) (ids : List Nat) : List Record :=
  records.filter (fun r => !(ids.contains r.id))

/-- Result of one page fetch against the remote inventory endpoint:
an exception, a response without a `listings` field, or listings plus
an optional pagination page count. -/
inductive FetchResult
  | fail
  | malformed
  | ok (listings : List Listing) (pages : Option Nat)
deriving DecidableEq, Repr

/-- The pagination loop over the remaining `k` pages starting at page
`current` (the total page count was fixed by the first page): an
exception aborts the whole fetch (`none`), a malformed response breaks
the loop keeping what was gathered. -/
def fetchPagesGo (f : Nat → FetchResult) : Nat → List Listing → Nat → Option (List Listing)
  | 0, acc, _ => some acc
  | k + 1, acc, current =>
    match f current with
    | FetchResult.fail => none
    | FetchResult.malformed => some acc
    | FetchResult.ok ls _ => fetchPagesGo f k (acc ++ ls) (current + 1)

/-- The whole fetch phase: page 1 fixes the total page count (staying
1 when the response has no pagination, so pages `2 .. total` remain),
then later pages are fetched sequentially.  `none` models the catch
that returns a failed sync result. -/
def fetchAllListings (f : Nat → FetchResult) : Option (List Listing) :=
  match f 1 with
  | FetchResult.fail => none
  | FetchResult.malformed => some []
  | FetchResult.ok ls pg => fetchPagesGo f (pg.getD 1 - 1) ls 2

/-- Result of a reconciliation run: failure (the fetch aborted) or the
computed deltas. -/
inductive SyncOutcome
  | failure
  | ok (deltas : SyncDeltas)
deriving DecidableEq, Repr

/-- The reconciliation run `syncDiscogsInventory`: fetch all pages,
then compute the deltas against the local mirror. -/
def syncDiscogsInventory (f : Nat → FetchResult) (db : Db) : SyncOutcome :=
  match fetchAllListings f with
  | none => SyncOutcome.failure
  | some listings => SyncOutcome.ok (computeDeltas db (buildCurrentDataMap listings).1)

/-!
Cart engine (`cartService.js`): the guest-cart merge.
-/

/-- One guest-cart item posted to the merge endpoint; a missing or
non-string record id is modelled as `none`. -/
structure GuestItem where
  recordId : Option Nat
  quantity : Int
deriving DecidableEq, Repr

/-- Lookup of the cart row for a `(cartId, recordId)` pair. -/
def findCartItem (items : List CartItem) (cartId recordId : Nat) : Option CartItem :=
  items.find? (fun ci => ci.cartId == cartId && ci.recordId == recordId)

/-- Upsert of a cart item keyed by `(cartId, recordId)`. -/
def upsertCartItem (items : List CartItem) (cartId recordId : Nat) (qty : Int) :
    List CartItem :=
  if items.any (fun ci => ci.cartId == cartId && ci.recordId == recordId) then
    items.map (fun ci =>
      if ci.cartId == cartId && ci.recordId == recordId then
        { ci with quantity := qty }
      else ci)
  else items ++ [{ cartId := cartId, recordId := recordId, quantity := qty }]

/-- The `quantityToSet` the merge computes before the stock check: the
guest quantity summed with any existing cart row for the record. -/
def mergeRequestedQuantity (items : List CartItem) (cartId rid : Nat)
    (g : GuestItem) : Int :=
  match findCartItem items cartId rid with
  | some existing => existing.quantity + g.quantity
  | none => g.quantity

/-- Body of the merge loop for one guest item: malformed items,
unknown records, records not for sale, the user's own records, and
items capped down to zero stock are skipped (the loop continues);
otherwise the guest quantity is summed with any existing row, capped
at the record's live stock, and upserted. -/
def mergeOne (records : List Record) (userId cartId : Nat)
    (items : List CartItem) (g : GuestItem) : List CartItem :=
  match g.recordId with
  | none => items
  | some rid =>
    if g.quantity ≤ 0 then items
    else
      match findRecord records rid with
      | none => items
      | some record =>
        if record.status ≠ RecordStatus.FOR_SALE then items
        else if record.userId == some userId then items
        else
          let quantityToSet := mergeRequestedQuantity items cartId rid g
          if record.quantity < quantityToSet then
            if record.quantity ≤ 0 then items
            else upsertCartItem items cartId rid record.quantity
          else upsertCartItem items cartId rid quantityToSet

/-- The guest-cart merge (`mergeCart`): one pass over the posted items
inside a single transaction. -/
def mergeCart (records : List Record) (userId cartId : Nat)
    (guestItems : List GuestItem) (items : List CartItem) : List CartItem :=
  guestItems.foldl (mergeOne records userId cartId) items

/-!
Statement-side predicates and concrete inputs used by the theorems
below.
-/

/-- Identity-preservation between two record tables: every row of the
new table comes from a row of the old table with the same id, remote
listing id, title, artist and price (only quantity and status may have
changed). -/
def recIdentPreserved (old new : List Record) : Prop :=
  ∀ r ∈ new, ∃ r0 ∈ old, r.id = r0.id ∧ r.discogsListingId = r0.discogsListingId ∧
    r.title = r0.title ∧ r.artist = r0.artist ∧ r.price = r0.price

/-- A mirrored record with two copies in stock and a live Discogs
listing. -/
def recTwo : Record :=
  { id := 1
    title := "Blue Train"
    artist := "John Coltrane"
    price := 30
    condition := "VG+"
    sleeveCondition := some "VG"
    notes := some "original pressing"
    location := some "A1"
    coverImage := none
    quantity := 2
    status := RecordStatus.FOR_SALE
    discogsListingId := some 77
    discogsReleaseId := some 500
    userId := none }

/-- The same record with one copy in stock. -/
def recOne : Record := { recTwo with quantity := 1 }

/-- The same record with three copies in stock. -/
def recThree : Record := { recTwo with quantity := 3 }

/-- A store holding one mirrored record, one cart for user 3 with one
cart item, and no orders. -/
def dbTwo : Db :=
  { records := [recTwo]
    orders := []
    orderItems := []
    carts := [{ id := 5, userId := 3 }]
    cartItems := [{ cartId := 5, recordId := 1, quantity := 1 }] }

/-- The store with a single copy in stock. -/
def dbOne : Db := { dbTwo with records := [recOne] }

/-- The store with three copies in stock. -/
def dbThree : Db := { dbTwo with records := [recThree] }

/-- A payment-confirmed checkout session for user 3. -/
def sess : StripeSession :=
  { id := "cs_test_1"
    userId := some 3
    cartId := some 5
    paymentIntentId := some "pi_1"
    amountTotal := 3000
    currency := "usd"
    customerName := some "Buyer"
    customerEmail := some "buyer" }

/-- The same session without the user identifier in its metadata. -/
def sessNoUser : StripeSession := { sess with userId := none }

/-- A line item purchasing one copy of record 1. -/
def liOne : StripeLineItem := { quantity := 1, dbRecordId := some 1 }

/-- A line item purchasing two copies of record 1. -/
def liTwo : StripeLineItem := { quantity := 2, dbRecordId := some 1 }

/-- Oracle in which every remote call succeeds and relists return
listing id 99. -/
def envAllOk : DiscogsEnv :=
  { clientOk := true, deleteOk := fun _ => true, relist := fun _ => some 99 }

/-- Oracle in which deletes succeed but every relist fails. -/
def envRelistFails : DiscogsEnv :=
  { clientOk := true, deleteOk := fun _ => true, relist := fun _ => none }

/-- Oracle in which deletes fail but relists succeed. -/
def envDeleteFails : DiscogsEnv :=
  { clientOk := true, deleteOk := fun _ => false, relist := fun _ => some 99 }

/-- Oracle in which the Discogs client fails to initialise. -/
def envNoClient : DiscogsEnv :=
  { clientOk := false, deleteOk := fun _ => true, relist := fun _ => some 99 }

/-- A remote listing for release 100. -/
def remoteListing : Listing :=
  { id := 11
    release := some
      { id := 100
        title := "Kind of Blue"
        artist := "Miles Davis"
        coverImage := none
        thumbnail := none
        images := [] }
    price := some 25
    condition := "VG"
    sleeveCondition := some "G"
    comments := none
    location := none }

/-- Fetch oracle: page 1 succeeds announcing 3 pages, every later page
raises. -/
def laterPageFails : Nat → FetchResult :=
  fun n => if n == 1 then FetchResult.ok [remoteListing] (some 3) else FetchResult.fail

/-- A local FOR_SALE record with no remote listing id, for release
100. -/
def orphanRec : Record :=
  { id := 7
    title := "Kind of Blue"
    artist := "Miles Davis"
    price := 25
    condition := "VG"
    sleeveCondition := some "G"
    notes := none
    location := none
    coverImage := none
    quantity := 1
    status := RecordStatus.FOR_SALE
    discogsListingId := none
    discogsReleaseId := some 100
    userId := none }

/-- An unmatched remote payload for release 100 under listing id 20. -/
def candHigh : RecordData :=
  { discogsReleaseId := 100
    discogsListingId := 20
    title := "Kind of Blue"
    artist := "Miles Davis"
    coverImage := none
    price := 25
    condition := "VG"
    sleeveCondition := some "G"
    notes := none
    location := none }

/-- An unmatched remote payload for release 100 under the lower
listing id 10. -/
def candLow : RecordData := { candHigh with discogsListingId := 10 }

/-- A fetched map in which the higher listing id 20 precedes the lower
listing id 10 in feed order. -/
def curTwoCands : List (Nat × RecordData) := [(20, candHigh), (10, candLow)]

/-- A store in which record 4 is referenced by an order item and its
listing 88 has vanished from the remote feed. -/
def dbGuarded : Db :=
  { records := [{ recTwo with id := 4, discogsListingId := some 88 }]
    orders := []
    orderItems :=
      [{ orderId := 0, recordId := 4, title := "Blue Train",
         artist := "John Coltrane", price := 3000, quantity := 1 }]
    carts := []
    cartItems := [] }

/-- A sellable record with four copies in stock, for the merge
scenario. -/
def stockFour : Record :=
  { recTwo with id := 2, quantity := 4, discogsListingId := some 78 }

/-- A user cart already holding two copies of record 2. -/
def cartWithTwo : List CartItem := [{ cartId := 1, recordId := 2, quantity := 2 }]

/-- A guest item asking for three more copies of record 2. -/
def guestThree : GuestItem := { recordId := some 2, quantity := 3 }

/-- Fetch oracle whose first page already raises. -/
def firstPageFails : Nat → FetchResult := fun _ => FetchResult.fail

/-!
Theorems.
-/

/-- An order in the table with the session's checkout id makes the
idempotency guard fire. -/
lemma sessionHasOrder_of_mem {db : Db} {cid : String} {o : Order}
    (h : o ∈ db.orders) (ho : o.stripeCheckoutId = some cid) :
    sessionHasOrder db cid = true := by
  simp only [sessionHasOrder, List.any_eq_true]
  exact ⟨o, h, by simp [ho]⟩

/-- Every non-committing branch of the settlement handler leaves the
database untouched. -/
lemma handle_db_unchanged_of_not_completed (env : DiscogsEnv) (s : StripeSession)
    (li : Option (List StripeLineItem)) (db : Db)
    (h : (handleCheckoutSessionCompleted env s li db).result ≠ HandleResult.completed) :
    (handleCheckoutSessionCompleted env s li db).db = db := by
  cases hu : s.userId with
  | none => simp [handleCheckoutSessionCompleted, hu]
  | some u =>
    by_cases ho : sessionHasOrder db s.id
    · simp [handleCheckoutSessionCompleted, hu, ho]
    · cases hli : li with
      | none => simp [handleCheckoutSessionCompleted, hu, ho, hli]
      | some l =>
        cases l with
        | nil => simp [handleCheckoutSessionCompleted, hu, ho, hli]
        | cons item rest =>
          simp only [handleCheckoutSessionCompleted, hu, ho, hli, if_neg, ite_false] at h ⊢
          cases hsl : settleLineItems env (mkOrder db s u).id
              { records := db.records, orderItems := db.orderItems, ops := [] }
              (item :: rest) with
          | error stFail => simp [hsl]
          | ok st1 => simp [hsl] at h

/-- C9: a payment-confirmed checkout event whose metadata lacks the
user identifier makes the settlement handler return without creating
any order, touching inventory, or raising; the webhook endpoint
acknowledges the event with HTTP 200. -/
theorem missing_user_event_acknowledged (env : DiscogsEnv) (s : StripeSession)
    (li : Option (List StripeLineItem)) (db : Db) (h : s.userId = none) :
    handleCheckoutSessionCompleted env s li db =
      { db := db, ops := [], result := HandleResult.earlyReturn } ∧
    webhookResponseStatus (handleCheckoutSessionCompleted env s li db) = 200 := by
  have h1 : handleCheckoutSessionCompleted env s li db =
      { db := db, ops := [], result := HandleResult.earlyReturn } := by
    simp [handleCheckoutSessionCompleted, h]
  exact ⟨h1, by rw [h1]; rfl⟩

/-- Witness for C9: the sample session with no user id is acknowledged
as a no-op with HTTP 200. -/
theorem missing_user_event_acknowledged_witness :
    sessNoUser.userId = none ∧
    (handleCheckoutSessionCompleted envAllOk sessNoUser (some [liOne]) dbTwo =
        { db := dbTwo, ops := [], result := HandleResult.earlyReturn } ∧
      webhookResponseStatus
        (handleCheckoutSessionCompleted envAllOk sessNoUser (some [liOne]) dbTwo) = 200) :=
  ⟨rfl, missing_user_event_acknowledged envAllOk sessNoUser (some [liOne]) dbTwo rfl⟩

/-- C3: settlement re-validates every line item inside the
transaction; any validation failure rolls the whole transaction back —
no order, no order item and no inventory decrement persists — and the
error is surfaced to the event source as a non-2xx response.  In
particular a first line item whose freshly fetched record is not
FOR_SALE or has less stock than the purchased quantity aborts the run
with the database unchanged. -/
theorem settlement_aborts_on_validation_failure (env : DiscogsEnv) (s : StripeSession)
    (li : Option (List StripeLineItem)) (db : Db) :
    ((handleCheckoutSessionCompleted env s li db).result = HandleResult.errored →
      (handleCheckoutSessionCompleted env s li db).db = db ∧
      webhookResponseStatus (handleCheckoutSessionCompleted env s li db) = 500) ∧
    (∀ (u : Nat) (item : StripeLineItem) (rest : List StripeLineItem) (rid : Nat)
        (record : Record),
      s.userId = some u → sessionHasOrder db s.id = false →
      li = some (item :: rest) → item.dbRecordId = some rid →
      findRecord db.records rid = some record →
      (record.status ≠ RecordStatus.FOR_SALE ∨ record.quantity < item.quantity) →
      handleCheckoutSessionCompleted env s li db =
        { db := db, ops := [], result := HandleResult.errored }) := by
  constructor
  · intro hres
    refine ⟨handle_db_unchanged_of_not_completed env s li db ?_, ?_⟩
    · rw [hres]; intro hc; cases hc
    · simp [webhookResponseStatus, hres]
  · intro u item rest rid record hu ho hli hitem hfind hbad
    have hstep : settleLineItem env (mkOrder db s u).id
        { records := db.records, orderItems := db.orderItems, ops := [] } item =
        Except.error
          (if record.status ≠ RecordStatus.FOR_SALE then
            "Record was not FOR_SALE post-payment"
          else "Insufficient stock post-payment") := by
      by_cases hst : record.status = RecordStatus.FOR_SALE
      · rcases hbad with hbad | hbad
        · exact absurd hst hbad
        · simp [settleLineItem, hitem, hfind, hst, hbad]
      · simp [settleLineItem, hitem, hfind, hst]
    have hsl : settleLineItems env (mkOrder db s u).id
        { records := db.records, orderItems := db.orderItems, ops := [] }
        (item :: rest) =
        Except.error { records := db.records, orderItems := db.orderItems, ops := [] } := by
      simp [settleLineItems, hstep]
    simp [handleCheckoutSessionCompleted, hu, ho, hli, hsl]

/-- Witness for C3: a purchase of two copies against live stock of one
aborts the settlement, leaves the store unchanged and answers 500. -/
theorem settlement_aborts_on_validation_failure_witness :
    sess.userId = some 3 ∧ sessionHasOrder dbOne sess.id = false ∧
    liTwo.dbRecordId = some 1 ∧ findRecord dbOne.records 1 = some recOne ∧
    recOne.quantity < liTwo.quantity ∧
    handleCheckoutSessionCompleted envAllOk sess (some [liTwo]) dbOne =
      { db := dbOne, ops := [], result := HandleResult.errored } :=
  ⟨rfl, by decide, rfl, by decide, by decide,
    (settlement_aborts_on_validation_failure envAllOk sess (some [liTwo]) dbOne).2
      3 liTwo [] 1 recOne rfl (by decide) rfl rfl (by decide) (Or.inr (by decide))⟩

/-- C4: evaluation of the settlement handler at the partial-failure
input (remote delete succeeds, relist fails).  The `throw addError`
after a failed relist is caught by the enclosing
`catch (discogsError)` which only logs, so — contrary to the code's
own comments — the transaction still commits: the order persists, the
stock is decremented, and the local record keeps its old (remotely
deleted) listing id.  The first conjuncts also show the intended half:
a failed delete is only a warning and the relist is still attempted. -/
theorem relist_failure_swallowed_commits :
    (handleCheckoutSessionCompleted envDeleteFails sess (some [liOne]) dbTwo).ops =
      [DiscogsOp.deleteAttempt 77 false,
       DiscogsOp.createAttempt (mkAddListingPayload recTwo) (some 99)] ∧
    (handleCheckoutSessionCompleted envDeleteFails sess (some [liOne]) dbTwo).result =
      HandleResult.completed ∧
    (handleCheckoutSessionCompleted envRelistFails sess (some [liOne]) dbTwo).result =
      HandleResult.completed ∧
    ordersForCheckout
      (handleCheckoutSessionCompleted envRelistFails sess (some [liOne]) dbTwo).db
      sess.id = 1 ∧
    (handleCheckoutSessionCompleted envRelistFails sess (some [liOne]) dbTwo).ops =
      [DiscogsOp.deleteAttempt 77 true,
       DiscogsOp.createAttempt (mkAddListingPayload recTwo) none] ∧
    findRecord
      (handleCheckoutSessionCompleted envRelistFails sess (some [liOne]) dbTwo).db.records
      1 = some { recTwo with quantity := 1 } := by
  decide

/-- C1: settlement is idempotent in the checkout identifier.  When an
order already exists for the session's checkout id the handler returns
with the store untouched and no remote call; and after any completed
settlement, re-processing the same session is such a no-op and the
store holds exactly one order for that checkout id. -/
theorem settlement_idempotent (env env2 : DiscogsEnv) (s : StripeSession)
    (li li2 : Option (List StripeLineItem)) (db : Db) :
    ((∃ o ∈ db.orders, o.stripeCheckoutId = some s.id) →
      handleCheckoutSessionCompleted env s li db =
        { db := db, ops := [], result := HandleResult.earlyReturn }) ∧
    ((handleCheckoutSessionCompleted env s li db).result = HandleResult.completed →
      handleCheckoutSessionCompleted env2 s li2
          (handleCheckoutSessionCompleted env s li db).db =
        { db := (handleCheckoutSessionCompleted env s li db).db, ops := [],
          result := HandleResult.earlyReturn } ∧
      ordersForCheckout (handleCheckoutSessionCompleted env s li db).db s.id = 1) := by
  constructor
  · rintro ⟨o, hmem, ho⟩
    cases hu : s.userId with
    | none => simp [handleCheckoutSessionCompleted, hu]
    | some u =>
      have hso := sessionHasOrder_of_mem hmem ho
      simp [handleCheckoutSessionCompleted, hu, hso]
  · intro hres
    cases hu : s.userId with
    | none => simp [handleCheckoutSessionCompleted, hu] at hres
    | some u =>
      by_cases ho : sessionHasOrder db s.id
      · simp [handleCheckoutSessionCompleted, hu, ho] at hres
      · cases hli : li with
        | none => simp [handleCheckoutSessionCompleted, hu, ho, hli] at hres
        | some l =>
          cases l with
          | nil => simp [handleCheckoutSessionCompleted, hu, ho, hli] at hres
          | cons item rest =>
            cases hsl : settleLineItems env (mkOrder db s u).id
                { records := db.records, orderItems := db.orderItems, ops := [] }
                (item :: rest) with
            | error stFail =>
              simp [handleCheckoutSessionCompleted, hu, ho, hli, hsl] at hres
            | ok st1 =>
              have hstale : db.orders.filter
                  (fun o => o.stripeCheckoutId == some s.id) = [] := by
                rw [List.filter_eq_nil_iff]
                intro o hmem hbeq
                exact ho (sessionHasOrder_of_mem hmem (by simpa using hbeq))
              have hdb : (handleCheckoutSessionCompleted env s (some (item :: rest)) db).db =
                  { records := st1.records
                    orders := mkOrder db s u :: db.orders
                    orderItems := st1.orderItems
                    carts := db.carts
                    cartItems := clearUserCartItems db u } := by
                simp [handleCheckoutSessionCompleted, hu, ho, hsl]
              have hhas2 : sessionHasOrder
                  (handleCheckoutSessionCompleted env s (some (item :: rest)) db).db
                    s.id = true := by
                rw [hdb]
                simp [sessionHasOrder, mkOrder]
              have hcount : ordersForCheckout
                  (handleCheckoutSessionCompleted env s (some (item :: rest)) db).db
                    s.id = 1 := by
                rw [hdb]
                simp [ordersForCheckout, mkOrder, hstale]
              refine ⟨?_, hcount⟩
              generalize hD : (handleCheckoutSessionCompleted env s (some (item :: rest)) db).db
                  = D at hhas2 ⊢
              simp [handleCheckoutSessionCompleted, hu, hhas2]

/-- Witness for C1: after the sample settlement completes, processing
the same checkout id again is a no-op and exactly one order exists;
and on a store that already holds the order, the handler is a no-op. -/
theorem settlement_idempotent_witness :
    (handleCheckoutSessionCompleted envAllOk sess (some [liOne]) dbTwo).result =
      HandleResult.completed ∧
    (handleCheckoutSessionCompleted envAllOk sess (some [liOne])
        (handleCheckoutSessionCompleted envAllOk sess (some [liOne]) dbTwo).db =
      { db := (handleCheckoutSessionCompleted envAllOk sess (some [liOne]) dbTwo).db,
        ops := [], result := HandleResult.earlyReturn } ∧
      ordersForCheckout
        (handleCheckoutSessionCompleted envAllOk sess (some [liOne]) dbTwo).db sess.id = 1) :=
  ⟨by decide,
    (settlement_idempotent envAllOk envAllOk sess (some [liOne]) (some [liOne]) dbTwo).2
      (by decide)⟩

/-- A record found by primary key carries that id. -/
lemma findRecord_eq_id {rs : List Record} {rid : Nat} {r : Record}
    (h : findRecord rs rid = some r) : r.id = rid := by
  have := List.find?_some h
  simpa using this

/-- Looking up the updated key after an id-preserving row update gives
the updated row. -/
lemma findRecord_updateRecord (rs : List Record) (rid : Nat) (f : Record → Record)
    (hf : ∀ r, (f r).id = r.id) :
    findRecord (updateRecord rs rid f) rid = (findRecord rs rid).map f := by
  induction rs with
  | nil => simp [findRecord, updateRecord]
  | cons a l ih =>
    by_cases h : a.id = rid
    · have h2 : ((f a).id == rid) = true := by simp [hf, h]
      simp [findRecord, updateRecord, h, h2] at ih ⊢
    · have h2 : ((a.id : Nat) == rid) = false := by simp [h]
      simp only [updateRecord, List.map_cons, h2, if_neg, Bool.false_eq_true,
        not_false_iff, ite_false, findRecord, List.find?_cons_of_neg, h2] at ih ⊢
      exact ih

/-- C8 (amended): for every line item settled against a record with a
live remote listing, the record's quantity is decremented by the
purchased quantity; when the new quantity reaches zero the status
becomes SOLD and the remote listing is deleted without a relist; when
copies remain the status stays FOR_SALE and the listing is deleted and
recreated from the record's price/condition payload — which carries no
quantity field, so the replacement is a single-copy listing (implicit
quantity 1), not one holding the remaining quantity. -/
theorem settle_decrement_and_relist (env : DiscogsEnv) (oid : Nat) (st : TxState)
    (item : StripeLineItem) (rid : Nat) (record : Record) (lid : Nat)
    (hitem : item.dbRecordId = some rid)
    (hfind : findRecord st.records rid = some record)
    (hstatus : record.status = RecordStatus.FOR_SALE)
    (hqty : ¬ record.quantity < item.quantity)
    (hclient : env.clientOk = true)
    (hlid : record.discogsListingId = some lid) :
    ∃ st2, settleLineItem env oid st item = Except.ok st2 ∧
      (∀ r2, findRecord st2.records rid = some r2 →
        r2.quantity = record.quantity - item.quantity ∧
        r2.status = (if record.quantity - item.quantity ≤ 0 then RecordStatus.SOLD
          else RecordStatus.FOR_SALE)) ∧
      (record.quantity - item.quantity = 0 →
        st2.ops = st.ops ++ [DiscogsOp.deleteAttempt lid (env.deleteOk lid)]) ∧
      (0 < record.quantity - item.quantity →
        st2.ops = st.ops ++
          [DiscogsOp.deleteAttempt lid (env.deleteOk lid),
           DiscogsOp.createAttempt (mkAddListingPayload record)
             (env.relist record.discogsReleaseId)] ∧
        implicitListingQuantity (mkAddListingPayload record) = 1) := by
  have hid : record.id = rid := findRecord_eq_id hfind
  by_cases hpos : 0 < record.quantity - item.quantity
  · have hnle : ¬ record.quantity - item.quantity ≤ 0 := by omega
    cases hr : env.relist record.discogsReleaseId with
    | some nid =>
      cases hstep : settleLineItem env oid st item with
      | error e =>
        simp [settleLineItem, hitem, hfind, hstatus, hqty, hclient, hlid, hr,
          hnle, hpos] at hstep
      | ok st2 =>
        have hval := hstep
        simp [settleLineItem, hitem, hfind, hstatus, hqty, hclient, hlid, hr,
          hnle, hpos] at hval
        subst hval
        refine ⟨_, rfl, ?_, ?_, ?_⟩
        · intro r2 hr2
          rw [hid, findRecord_updateRecord, findRecord_updateRecord, hfind] at hr2
          rotate_left
          · intro r; rfl
          · intro r; rfl
          simp only [Option.map_some, Option.map_some', Option.some.injEq] at hr2
          subst hr2
          exact ⟨rfl, by simp [hnle]⟩
        · intro h0; omega
        · intro _; exact ⟨by simp [hr], rfl⟩
    | none =>
      cases hstep : settleLineItem env oid st item with
      | error e =>
        simp [settleLineItem, hitem, hfind, hstatus, hqty, hclient, hlid, hr,
          hnle, hpos] at hstep
      | ok st2 =>
        have hval := hstep
        simp [settleLineItem, hitem, hfind, hstatus, hqty, hclient, hlid, hr,
          hnle, hpos] at hval
        subst hval
        refine ⟨_, rfl, ?_, ?_, ?_⟩
        · intro r2 hr2
          rw [hid, findRecord_updateRecord, hfind] at hr2
          rotate_left
          · intro r; rfl
          simp only [Option.map_some, Option.map_some', Option.some.injEq] at hr2
          subst hr2
          exact ⟨rfl, by simp [hnle]⟩
        · intro h0; omega
        · intro _; exact ⟨by simp [hr], rfl⟩
  · have hzero : record.quantity - item.quantity = 0 := by omega
    have hle : record.quantity - item.quantity ≤ 0 := by omega
    have hngt : ¬ record.quantity - item.quantity > 0 := by omega
    cases hstep : settleLineItem env oid st item with
    | error e =>
      simp [settleLineItem, hitem, hfind, hstatus, hqty, hclient, hlid, hngt,
        hle] at hstep
    | ok st2 =>
      have hval := hstep
      simp [settleLineItem, hitem, hfind, hstatus, hqty, hclient, hlid, hngt,
        hle] at hval
      subst hval
      refine ⟨_, rfl, ?_, ?_, ?_⟩
      · intro r2 hr2
        rw [hid, findRecord_updateRecord, hfind] at hr2
        rotate_left
        · intro r; rfl
        simp only [Option.map_some, Option.map_some', Option.some.injEq] at hr2
        subst hr2
        exact ⟨rfl, by simp [hle]⟩
      · intro _; rfl
      · intro h0; omega

/-- Witness for C8: a purchase of one of three copies decrements to
two, keeps FOR_SALE, deletes listing 77 and relists the payload (a
single-copy listing). -/
theorem settle_decrement_and_relist_witness :
    liOne.dbRecordId = some 1 ∧
    findRecord [recThree] 1 = some recThree ∧
    recThree.status = RecordStatus.FOR_SALE ∧
    (∃ st2, settleLineItem envAllOk 0
        { records := [recThree], orderItems := [], ops := [] } liOne = Except.ok st2 ∧
      (∀ r2, findRecord st2.records 1 = some r2 →
        r2.quantity = recThree.quantity - liOne.quantity ∧
        r2.status = (if recThree.quantity - liOne.quantity ≤ 0 then RecordStatus.SOLD
          else RecordStatus.FOR_SALE)) ∧
      (recThree.quantity - liOne.quantity = 0 →
        st2.ops = [] ++ [DiscogsOp.deleteAttempt 77 (envAllOk.deleteOk 77)]) ∧
      (0 < recThree.quantity - liOne.quantity →
        st2.ops = [] ++
          [DiscogsOp.deleteAttempt 77 (envAllOk.deleteOk 77),
           DiscogsOp.createAttempt (mkAddListingPayload recThree)
             (envAllOk.relist recThree.discogsReleaseId)] ∧
        implicitListingQuantity (mkAddListingPayload recThree) = 1)) :=
  ⟨rfl, by decide, rfl,
    settle_decrement_and_relist envAllOk 0
      { records := [recThree], orderItems := [], ops := [] } liOne 1 recThree 77
      rfl (by decide) rfl (by decide) rfl rfl⟩

/-- Identity preservation is reflexive. -/
lemma recIdentPreserved_refl (rs : List Record) : recIdentPreserved rs rs :=
  fun r hr => ⟨r, hr, rfl, rfl, rfl, rfl, rfl⟩

/-- Identity preservation composes. -/
lemma recIdentPreserved_trans {a b c : List Record}
    (h1 : recIdentPreserved a b) (h2 : recIdentPreserved b c) :
    recIdentPreserved a c := by
  intro r hr
  obtain ⟨r1, hr1, e1, e2, e3, e4, e5⟩ := h2 r hr
  obtain ⟨r0, hr0, f1, f2, f3, f4, f5⟩ := h1 r1 hr1
  exact ⟨r0, hr0, e1.trans f1, e2.trans f2, e3.trans f3, e4.trans f4, e5.trans f5⟩

/-- A row update that keeps id, listing id, title, artist and price
preserves identity. -/
lemma recIdentPreserved_updateRecord (rs : List Record) (rid : Nat)
    (f : Record → Record)
    (hf : ∀ r, (f r).id = r.id ∧ (f r).discogsListingId = r.discogsListingId ∧
      (f r).title = r.title ∧ (f r).artist = r.artist ∧ (f r).price = r.price) :
    recIdentPreserved rs (updateRecord rs rid f) := by
  intro r hr
  simp only [updateRecord, List.mem_map] at hr
  obtain ⟨r0, hr0, heq⟩ := hr
  refine ⟨r0, hr0, ?_⟩
  by_cases h : (r0.id == rid) = true
  · rw [if_pos h] at heq
    subst heq
    exact hf r0
  · rw [if_neg h] at heq
    subst heq
    exact ⟨rfl, rfl, rfl, rfl, rfl⟩

/-- With a failed Discogs client, one settled line item performs no
remote call, keeps every record's identity fields, and only appends
order items. -/
lemma settleLineItem_noClient (env : DiscogsEnv) (oid : Nat) (st : TxState)
    (item : StripeLineItem) (st2 : TxState) (h : env.clientOk = false)
    (hok : settleLineItem env oid st item = Except.ok st2) :
    st2.ops = st.ops ∧ recIdentPreserved st.records st2.records ∧
    ∃ tail, st2.orderItems = st.orderItems ++ tail := by
  unfold settleLineItem at hok
  rw [h] at hok
  split at hok
  · exact absurd hok (by simp)
  split at hok
  · exact absurd hok (by simp)
  split at hok
  · exact absurd hok (by simp)
  split at hok
  · exact absurd hok (by simp)
  simp only [Bool.false_eq_true, if_false, ite_false, Except.ok.injEq] at hok
  subst hok
  refine ⟨rfl, ?_, ⟨_, rfl⟩⟩
  exact recIdentPreserved_updateRecord _ _ _ (fun r => ⟨rfl, rfl, rfl, rfl, rfl⟩)

/-- With a failed Discogs client, the whole per-item loop performs no
remote call; on success it keeps record identities and only appends
order items, and on failure the state returned for the rollback also
carries no remote call. -/
lemma settleLineItems_noClient (env : DiscogsEnv) (oid : Nat)
    (h : env.clientOk = false) :
    ∀ (items : List StripeLineItem) (st : TxState),
      (∀ stE, settleLineItems env oid st items = Except.error stE →
        stE.ops = st.ops) ∧
      (∀ st2, settleLineItems env oid st items = Except.ok st2 →
        st2.ops = st.ops ∧ recIdentPreserved st.records st2.records ∧
        ∃ tail, st2.orderItems = st.orderItems ++ tail) := by
  intro items
  induction items with
  | nil =>
    intro st
    constructor
    · intro stE hE
      exact absurd hE (by simp [settleLineItems])
    · intro st2 h2
      simp only [settleLineItems, Except.ok.injEq] at h2
      subst h2
      exact ⟨rfl, recIdentPreserved_refl _, ⟨[], by simp⟩⟩
  | cons item rest ih =>
    intro st
    constructor
    · intro stE hE
      simp only [settleLineItems] at hE
      cases hs : settleLineItem env oid st item with
      | error e =>
        rw [hs] at hE
        simp only [Except.error.injEq] at hE
        subst hE
        rfl
      | ok stM =>
        rw [hs] at hE
        have hone := settleLineItem_noClient env oid st item stM h hs
        have := (ih stM).1 stE hE
        rw [this, hone.1]
    · intro st2 h2
      simp only [settleLineItems] at h2
      cases hs : settleLineItem env oid st item with
      | error e =>
        rw [hs] at h2
        exact absurd h2 (by simp)
      | ok stM =>
        rw [hs] at h2
        have hone := settleLineItem_noClient env oid st item stM h hs
        obtain ⟨hop, hpres, t2, ht2⟩ := (ih stM).2 st2 h2
        refine ⟨hop.trans hone.1, recIdentPreserved_trans hone.2.1 hpres, ?_⟩
        obtain ⟨t1, ht1⟩ := hone.2.2
        exact ⟨t1 ++ t2, by rw [ht2, ht1, List.append_assoc]⟩

/-- C10: when the Discogs client fails to initialise at the start of
settlement, no remote call is attempted at all, and a completed run
still commits locally: exactly one new order for the checkout id, the
order-item snapshots appended, every record keeping its identity
fields (in particular its stored remote listing id), and the buyer's
cart items cleared. -/
theorem client_init_failure_commits_locally (env : DiscogsEnv) (s : StripeSession)
    (li : Option (List StripeLineItem)) (db : Db) (h : env.clientOk = false) :
    (handleCheckoutSessionCompleted env s li db).ops = [] ∧
    ((handleCheckoutSessionCompleted env s li db).result = HandleResult.completed →
      ordersForCheckout (handleCheckoutSessionCompleted env s li db).db s.id =
        ordersForCheckout db s.id + 1 ∧
      recIdentPreserved db.records
        (handleCheckoutSessionCompleted env s li db).db.records ∧
      (∃ tail, (handleCheckoutSessionCompleted env s li db).db.orderItems =
        db.orderItems ++ tail) ∧
      (∀ u cart, s.userId = some u →
        db.carts.find? (fun c => c.userId == u) = some cart →
        ∀ ci ∈ (handleCheckoutSessionCompleted env s li db).db.cartItems,
          ci.cartId ≠ cart.id)) := by
  cases hu : s.userId with
  | none =>
    constructor
    · simp [handleCheckoutSessionCompleted, hu]
    · intro hres
      simp [handleCheckoutSessionCompleted, hu] at hres
  | some u =>
    by_cases ho : sessionHasOrder db s.id
    · constructor
      · simp [handleCheckoutSessionCompleted, hu, ho]
      · intro hres
        simp [handleCheckoutSessionCompleted, hu, ho] at hres
    · cases hli : li with
      | none =>
        constructor
        · simp [handleCheckoutSessionCompleted, hu, ho]
        · intro hres
          simp [handleCheckoutSessionCompleted, hu, ho] at hres
      | some l =>
        cases l with
        | nil =>
          constructor
          · simp [handleCheckoutSessionCompleted, hu, ho]
          · intro hres
            simp [handleCheckoutSessionCompleted, hu, ho] at hres
        | cons item rest =>
          cases hsl : settleLineItems env (mkOrder db s u).id
              { records := db.records, orderItems := db.orderItems, ops := [] }
              (item :: rest) with
          | error stFail =>
            have hops := (settleLineItems_noClient env (mkOrder db s u).id h
              (item :: rest)
              { records := db.records, orderItems := db.orderItems, ops := [] }).1
              stFail hsl
            constructor
            · simp [handleCheckoutSessionCompleted, hu, ho, hsl, hops]
            · intro hres
              simp [handleCheckoutSessionCompleted, hu, ho, hsl] at hres
          | ok st1 =>
            obtain ⟨hops, hpres, tail, htail⟩ :=
              (settleLineItems_noClient env (mkOrder db s u).id h (item :: rest)
                { records := db.records, orderItems := db.orderItems, ops := [] }).2
                st1 hsl
            have hdb : (handleCheckoutSessionCompleted env s (some (item :: rest)) db) =
                { db :=
                    { records := st1.records
                      orders := mkOrder db s u :: db.orders
                      orderItems := st1.orderItems
                      carts := db.carts
                      cartItems := clearUserCartItems db u }
                  ops := st1.ops
                  result := HandleResult.completed } := by
              simp [handleCheckoutSessionCompleted, hu, ho, hsl]
            rw [hdb]
            refine ⟨hops, fun _ => ⟨?_, hpres, ⟨tail, htail⟩, ?_⟩⟩
            · simp [ordersForCheckout, mkOrder]
            · intro u2 cart hu2 hcart ci hci
              have huu : u2 = u := (Option.some.inj hu2).symm
              subst huu
              simp only [clearUserCartItems, hcart, List.mem_filter] at hci
              simpa using hci.2

/-- Witness for C10: on the sample store with a failed client the
settlement completes with no remote call, one order, preserved record
identities and a cleared cart. -/
theorem client_init_failure_commits_locally_witness :
    envNoClient.clientOk = false ∧
    (handleCheckoutSessionCompleted envNoClient sess (some [liOne]) dbTwo).ops = [] ∧
    ((handleCheckoutSessionCompleted envNoClient sess (some [liOne]) dbTwo).result =
        HandleResult.completed →
      ordersForCheckout
          (handleCheckoutSessionCompleted envNoClient sess (some [liOne]) dbTwo).db
          sess.id =
        ordersForCheckout dbTwo sess.id + 1 ∧
      recIdentPreserved dbTwo.records
        (handleCheckoutSessionCompleted envNoClient sess (some [liOne]) dbTwo).db.records ∧
      (∃ tail,
        (handleCheckoutSessionCompleted envNoClient sess (some [liOne]) dbTwo).db.orderItems =
          dbTwo.orderItems ++ tail) ∧
      (∀ u cart, sess.userId = some u →
        dbTwo.carts.find? (fun c => c.userId == u) = some cart →
        ∀ ci ∈ (handleCheckoutSessionCompleted envNoClient sess
            (some [liOne]) dbTwo).db.cartItems,
          ci.cartId ≠ cart.id)) :=
  ⟨rfl, client_init_failure_commits_locally envNoClient sess (some [liOne]) dbTwo rfl⟩

/-- Membership after a set-like insertion. -/
lemma mem_setAdd {s : List Nat} {x y : Nat} (h : x ∈ setAdd s y) : x ∈ s ∨ x = y := by
  unfold setAdd at h
  by_cases hc : s.contains y
  · rw [if_pos hc] at h
    exact Or.inl h
  · rw [if_neg hc] at h
    rcases List.mem_append.mp h with h1 | h1
    · exact Or.inl h1
    · simp only [List.mem_singleton] at h1
      exact Or.inr h1

/-- One step of the stale-listing pass only adds unreferenced record
ids. -/
lemma staleStep_spec (cur : List (Nat × RecordData)) (ois : List OrderItem)
    (acc : List Nat) (p : Nat × Record) (x : Nat)
    (hx : x ∈ staleStep cur ois acc p) :
    x ∈ acc ∨ orderItemReferences ois x = false := by
  unfold staleStep at hx
  split at hx
  · exact Or.inl hx
  split at hx
  · exact Or.inl hx
  rcases mem_setAdd hx with h1 | h1
  · exact Or.inl h1
  · subst h1
    rename_i href
    exact Or.inr (Bool.eq_false_iff.mpr href)

/-- The stale-listing fold only adds unreferenced record ids. -/
lemma staleFold_spec (cur : List (Nat × RecordData)) (ois : List OrderItem) :
    ∀ (em : List (Nat × Record)) (acc : List Nat) (x : Nat),
      x ∈ em.foldl (staleStep cur ois) acc →
      x ∈ acc ∨ orderItemReferences ois x = false := by
  intro em
  induction em with
  | nil => intro acc x hx; exact Or.inl hx
  | cons p em ih =>
    intro acc x hx
    simp only [List.foldl_cons] at hx
    rcases ih (staleStep cur ois acc p) x hx with h1 | h1
    · exact staleStep_spec cur ois acc p x h1
    · exact Or.inr h1

/-- The orphan-resolution loop only adds unreferenced record ids to
the delete set. -/
lemma resolveOrphans_del_spec (ois : List OrderItem) (existingIds releaseIds : List Nat) :
    ∀ (orphans : List Record) (del : List Nat) (upd : List UpdateSpec)
      (cur : List (Nat × RecordData)) (logs : List SyncLog) (x : Nat),
      x ∈ (resolveOrphans ois existingIds releaseIds orphans del upd cur logs).1 →
      x ∈ del ∨ orderItemReferences ois x = false := by
  intro orphans
  induction orphans with
  | nil => intro del upd cur logs x hx; exact Or.inl hx
  | cons rec rest ih =>
    intro del upd cur logs x hx
    rw [resolveOrphans] at hx
    split at hx
    · split at hx
      · exact ih _ _ _ _ x hx
      · exact ih _ _ _ _ x hx
    · split at hx
      · exact ih _ _ _ _ x hx
      · rcases ih _ _ _ _ x hx with h1 | h1
        · rcases mem_setAdd h1 with h2 | h2
          · exact Or.inl h2
          · subst h2
            rename_i href
            exact Or.inr (Bool.eq_false_iff.mpr href)
        · exact Or.inr h1

/-- C2: a mirrored record referenced by at least one order item is
never placed in the reconciler's delete set and survives the delete
pass untouched, for every input combination of fetched data and local
state. -/
theorem orderReferenced_never_deleted (db : Db) (cur0 : List (Nat × RecordData))
    (rid : Nat) (h : orderItemReferences db.orderItems rid = true) :
    rid ∉ (computeDeltas db cur0).idsToDelete ∧
    ∀ r ∈ db.records, r.id = rid →
      r ∈ applySyncDeletes db.records (computeDeltas db cur0).idsToDelete := by
  have hnot : rid ∉ (computeDeltas db cur0).idsToDelete := by
    intro hmem
    simp only [computeDeltas] at hmem
    rcases resolveOrphans_del_spec db.orderItems _ _ _ _ _ _ _ rid hmem with h1 | h1
    · rcases staleFold_spec cur0 db.orderItems _ _ rid h1 with h2 | h2
      · exact absurd h2 (List.not_mem_nil rid)
      · rw [h] at h2
        cases h2
    · rw [h] at h1
      cases h1
  refine ⟨hnot, ?_⟩
  intro r hr hid
  simp only [applySyncDeletes, List.mem_filter]
  refine ⟨hr, ?_⟩
  rw [hid]
  simpa using hnot

/-- Witness for C2: record 4 is referenced by an order item and its
listing is gone from the feed, yet it is not in the delete set and
survives the delete pass. -/
theorem orderReferenced_never_deleted_witness :
    orderItemReferences dbGuarded.orderItems 4 = true ∧
    (4 ∉ (computeDeltas dbGuarded []).idsToDelete ∧
      ∀ r ∈ dbGuarded.records, r.id = 4 →
        r ∈ applySyncDeletes dbGuarded.records (computeDeltas dbGuarded []).idsToDelete) :=
  ⟨by decide, orderReferenced_never_deleted dbGuarded [] 4 (by decide)⟩

/-- A raised exception on any page reached by the pagination loop
aborts the whole fetch. -/
lemma fetchPagesGo_abort (f : Nat → FetchResult) :
    ∀ (k : Nat) (acc : List Listing) (current n : Nat),
      current ≤ n → n < current + k →
      (∀ m, current ≤ m → m < n → ∃ ls pg, f m = FetchResult.ok ls pg) →
      f n = FetchResult.fail →
      fetchPagesGo f k acc current = none := by
  intro k
  induction k with
  | zero => intro acc current n h1 h2 _ _; omega
  | succ k ih =>
    intro acc current n h1 h2 hok hfail
    by_cases hcn : current = n
    · subst hcn
      simp [fetchPagesGo, hfail]
    · have hlt : current < n := by omega
      obtain ⟨ls, pg, hcur⟩ := hok current le_rfl hlt
      simp only [fetchPagesGo, hcur]
      exact ih (acc ++ ls) (current + 1) n (by omega) (by omega)
        (fun m hm1 hm2 => hok m (by omega) hm2) hfail

/-- A malformed response on any page reached by the pagination loop
stops the fetch but keeps it successful. -/
lemma fetchPagesGo_malformed (f : Nat → FetchResult) :
    ∀ (k : Nat) (acc : List Listing) (current n : Nat),
      current ≤ n → n < current + k →
      (∀ m, current ≤ m → m < n → ∃ ls pg, f m = FetchResult.ok ls pg) →
      f n = FetchResult.malformed →
      ∃ g, fetchPagesGo f k acc current = some g := by
  intro k
  induction k with
  | zero => intro acc current n h1 h2 _ _; omega
  | succ k ih =>
    intro acc current n h1 h2 hok hmal
    by_cases hcn : current = n
    · subst hcn
      exact ⟨acc, by simp [fetchPagesGo, hmal]⟩
    · have hlt : current < n := by omega
      obtain ⟨ls, pg, hcur⟩ := hok current le_rfl hlt
      simp only [fetchPagesGo, hcur]
      exact ih (acc ++ ls) (current + 1) n (by omega) (by omega)
        (fun m hm1 hm2 => hok m (by omega) hm2) hmal

/-- C5 (amended): a raised fetch failure on the first page aborts the
run; a raised fetch failure on ANY reached later page equally aborts
the entire run with a failure result; only a malformed response (a
body without listings) stops the fetch and lets the run continue with
the listings gathered so far. -/
theorem fetch_failure_policy (f : Nat → FetchResult) (db : Db) :
    (f 1 = FetchResult.fail →
      fetchAllListings f = none ∧ syncDiscogsInventory f db = SyncOutcome.failure) ∧
    (f 1 = FetchResult.malformed → fetchAllListings f = some []) ∧
    (∀ ls total n, f 1 = FetchResult.ok ls (some total) →
      2 ≤ n → n ≤ total →
      (∀ m, 2 ≤ m → m < n → ∃ ls2 pg, f m = FetchResult.ok ls2 pg) →
      f n = FetchResult.fail →
      fetchAllListings f = none ∧ syncDiscogsInventory f db = SyncOutcome.failure) ∧
    (∀ ls total n, f 1 = FetchResult.ok ls (some total) →
      2 ≤ n → n ≤ total →
      (∀ m, 2 ≤ m → m < n → ∃ ls2 pg, f m = FetchResult.ok ls2 pg) →
      f n = FetchResult.malformed →
      ∃ g, fetchAllListings f = some g) := by
  refine ⟨?_, ?_, ?_, ?_⟩
  · intro h1
    constructor
    · simp [fetchAllListings, h1]
    · simp [syncDiscogsInventory, fetchAllListings, h1]
  · intro h1
    simp [fetchAllListings, h1]
  · intro ls total n h1 h2 h3 hok hfail
    have habort : fetchPagesGo f (total - 1) ls 2 = none :=
      fetchPagesGo_abort f (total - 1) ls 2 n h2 (by omega) hok hfail
    constructor
    · simp [fetchAllListings, h1, habort]
    · simp [syncDiscogsInventory, fetchAllListings, h1, habort]
  · intro ls total n h1 h2 h3 hok hmal
    obtain ⟨g, hg⟩ :=
      fetchPagesGo_malformed f (total - 1) ls 2 n h2 (by omega) hok hmal
    exact ⟨g, by simp [fetchAllListings, h1, hg]⟩

/-- Witness for C5 (amended) at concrete oracles: a first-page failure
aborts, and a page-2 failure after a successful page 1 announcing 3
pages also aborts. -/
theorem fetch_failure_policy_witness :
    firstPageFails 1 = FetchResult.fail ∧
    (fetchAllListings firstPageFails = none ∧
      syncDiscogsInventory firstPageFails dbTwo = SyncOutcome.failure) ∧
    laterPageFails 2 = FetchResult.fail ∧
    (fetchAllListings laterPageFails = none ∧
      syncDiscogsInventory laterPageFails dbTwo = SyncOutcome.failure) :=
  ⟨rfl, (fetch_failure_policy firstPageFails dbTwo).1 rfl, rfl,
    (fetch_failure_policy laterPageFails dbTwo).2.2.1 [remoteListing] 3 2 rfl
      (by omega) (by omega) (fun m hm1 hm2 => absurd (lt_of_le_of_lt hm1 hm2) (by omega))
      rfl⟩

/-- Counterexample for C5 as stated: page 1 succeeds with one listing
announcing three pages, page 2 raises — the run does NOT continue with
the listings gathered so far, it aborts with a failure result. -/
theorem later_page_failure_aborts_counterexample :
    laterPageFails 1 = FetchResult.ok [remoteListing] (some 3) ∧
    laterPageFails 2 = FetchResult.fail ∧
    fetchAllListings laterPageFails = none ∧
    ¬ fetchAllListings laterPageFails = some [remoteListing] ∧
    syncDiscogsInventory laterPageFails dbTwo = SyncOutcome.failure := by
  decide

/-- A JavaScript `find` returns the head of the filtered list. -/
lemma find?_eq_head_filter {α : Type} (p : α → Bool) (l : List α) :
    l.find? p = (l.filter p).head? := by
  induction l with
  | nil => rfl
  | cons a l ih =>
    by_cases h : p a
    · rw [List.find?_cons_of_pos _ h, List.filter_cons_of_pos h]
      rfl
    · rw [List.find?_cons_of_neg _ h, List.filter_cons_of_neg h]
      exact ih

/-- C6 (amended): for a FOR_SALE local record with no remote listing
id whose release id is still present in the feed, the resolver adopts
the FIRST currently-unmatched feed listing with that release id — the
head of the filtered feed, i.e. feed order, not the lowest listing
id — as an update onto the local record, removes that listing id from
further create/update consideration, and logs only the "found
potential match" message.  Being a pure function of the ordered feed,
identical inputs always produce the same choice. -/
theorem resolver_adopts_first_feed_match (ois : List OrderItem)
    (existingIds releaseIds : List Nat) (rec : Record) (rest : List Record)
    (del : List Nat) (upd : List UpdateSpec) (cur : List (Nat × RecordData))
    (logs : List SyncLog) (rel : Nat) (p : Nat × RecordData)
    (hrel : rec.discogsReleaseId = some rel)
    (hstill : releaseIds.contains rel = true)
    (hfirst : (cur.filter (adoptPred existingIds rec)).head? = some p) :
    resolveOrphans ois existingIds releaseIds (rec :: rest) del upd cur logs =
      resolveOrphans ois existingIds releaseIds rest del
        (upd ++ [UpdateSpec.adopt rec.id p.2])
        (cur.filter (fun q => q.1 != p.2.discogsListingId))
        (logs ++ [SyncLog.foundMatch rec.id p.2.discogsListingId]) ∧
    p ∈ cur ∧ adoptPred existingIds rec p = true := by
  have hfind : cur.find? (adoptPred existingIds rec) = some p := by
    rw [find?_eq_head_filter]
    exact hfirst
  have hmem : p ∈ cur := List.mem_of_find?_eq_some hfind
  have hp : adoptPred existingIds rec p = true := List.find?_some hfind
  refine ⟨?_, hmem, hp⟩
  rw [resolveOrphans]
  simp only [hrel, hstill, hfind, eq_self_iff_true, if_true]

/-- Witness for C6 (amended) on the two-candidate feed: the resolver
adopts listing 20 (feed head), removes it from consideration and logs
the match. -/
theorem resolver_adopts_first_feed_match_witness :
    orphanRec.discogsReleaseId = some 100 ∧
    ([100].contains 100 = true) ∧
    ((curTwoCands.filter (adoptPred [] orphanRec)).head? = some (20, candHigh)) ∧
    (resolveOrphans [] [] [100] (orphanRec :: []) [] [] curTwoCands [] =
      resolveOrphans [] [] [100] [] []
        ([] ++ [UpdateSpec.adopt orphanRec.id candHigh])
        (curTwoCands.filter (fun q => q.1 != candHigh.discogsListingId))
        ([] ++ [SyncLog.foundMatch orphanRec.id candHigh.discogsListingId]) ∧
      (20, candHigh) ∈ curTwoCands ∧ adoptPred [] orphanRec (20, candHigh) = true) :=
  ⟨rfl, by decide, by decide,
    resolver_adopts_first_feed_match [] [] [100] orphanRec [] [] [] curTwoCands []
      100 (20, candHigh) rfl (by decide) (by decide)⟩

/-- Counterexample for C6 as stated: release 100 has two unmatched
candidates, listing 20 first in feed order and listing 10 (the lowest
id) second; the run adopts listing 20, not the lowest id 10, and its
log holds only the "found potential match" entry — no ambiguity
warning. -/
theorem resolver_not_lowest_counterexample :
    adoptPred [] orphanRec (20, candHigh) = true ∧
    adoptPred [] orphanRec (10, candLow) = true ∧
    candLow.discogsListingId = 10 ∧ candHigh.discogsListingId = 20 ∧
    resolveOrphans [] [] [100] [orphanRec] [] [] curTwoCands [] =
      ([], [UpdateSpec.adopt 7 candHigh], [(10, candLow)],
        [SyncLog.foundMatch 7 20]) ∧
    ¬ (20 : Nat) = 10 := by
  decide

/-- C7: the guest-cart merge sums the guest quantity with any existing
row, caps the stored quantity at the record's live stock (so the
written quantity never exceeds stock), skips the item when stock is
zero, and skips a bad item (unknown record, not for sale, or owned by
the merging user) without aborting the rest of the batch. -/
theorem mergeCart_caps_and_skips (records : List Record) (uid cartId : Nat)
    (items : List CartItem) (g : GuestItem) (rid : Nat) (record : Record) :
    (g.recordId = some rid → 0 < g.quantity →
      findRecord records rid = some record →
      record.status = RecordStatus.FOR_SALE →
      ¬ record.userId = some uid →
      ((0 < record.quantity →
        mergeOne records uid cartId items g =
          upsertCartItem items cartId rid
            (min record.quantity (mergeRequestedQuantity items cartId rid g)) ∧
        min record.quantity (mergeRequestedQuantity items cartId rid g) ≤
          record.quantity) ∧
      (record.quantity = 0 → 0 < mergeRequestedQuantity items cartId rid g →
        mergeOne records uid cartId items g = items))) ∧
    (g.recordId = some rid → findRecord records rid = none →
      mergeOne records uid cartId items g = items) ∧
    (g.recordId = some rid → findRecord records rid = some record →
      record.status ≠ RecordStatus.FOR_SALE →
      mergeOne records uid cartId items g = items) ∧
    (g.recordId = some rid → findRecord records rid = some record →
      record.userId = some uid →
      mergeOne records uid cartId items g = items) ∧
    (∀ rest, mergeOne records uid cartId items g = items →
      mergeCart records uid cartId (g :: rest) items =
        mergeCart records uid cartId rest items) := by
  refine ⟨?_, ?_, ?_, ?_, ?_⟩
  · intro hrid hpos hfind hstatus huser
    have hq : ¬ g.quantity ≤ 0 := by omega
    have hbeq : (record.userId == some uid) = false := by
      simp [huser]
    constructor
    · intro hstock
      have hnz : ¬ record.quantity ≤ 0 := by omega
      by_cases hlt : record.quantity < mergeRequestedQuantity items cartId rid g
      · have hmin : min record.quantity (mergeRequestedQuantity items cartId rid g) =
            record.quantity := min_eq_left (by omega)
        rw [hmin]
        exact ⟨by simp [mergeOne, hrid, hq, hfind, hstatus, hbeq, hlt, hnz], le_refl _⟩
      · have hmin : min record.quantity (mergeRequestedQuantity items cartId rid g) =
            mergeRequestedQuantity items cartId rid g := min_eq_right (by omega)
        rw [hmin]
        exact ⟨by simp [mergeOne, hrid, hq, hfind, hstatus, hbeq, hlt], by omega⟩
    · intro hzero hreq
      have hlt : record.quantity < mergeRequestedQuantity items cartId rid g := by omega
      have hle : record.quantity ≤ 0 := by omega
      simp [mergeOne, hrid, hq, hfind, hstatus, hbeq, hlt, hle]
  · intro hrid hnone
    simp [mergeOne, hrid, hnone]
  · intro hrid hfind hstatus
    simp [mergeOne, hrid, hfind, hstatus]
  · intro hrid hfind huser
    have hbeq : (record.userId == some uid) = true := by simp [huser]
    by_cases hstatus : record.status = RecordStatus.FOR_SALE
    · simp [mergeOne, hrid, hfind, hstatus, hbeq]
    · simp [mergeOne, hrid, hfind, hstatus]
  · intro rest hskip
    simp [mergeCart, List.foldl_cons, hskip]

/-- Witness for C7: the spec scenario — guest qty 3, existing cart qty
2, live stock 4 — merges to the capped quantity 4, not 5. -/
theorem mergeCart_caps_and_skips_witness :
    guestThree.recordId = some 2 ∧
    findRecord [stockFour] 2 = some stockFour ∧
    mergeRequestedQuantity cartWithTwo 1 2 guestThree = 5 ∧
    (0 < stockFour.quantity →
      mergeOne [stockFour] 9 1 cartWithTwo guestThree =
        upsertCartItem cartWithTwo 1 2
          (min stockFour.quantity (mergeRequestedQuantity cartWithTwo 1 2 guestThree)) ∧
      min stockFour.quantity (mergeRequestedQuantity cartWithTwo 1 2 guestThree) ≤
        stockFour.quantity) ∧
    upsertCartItem cartWithTwo 1 2
        (min stockFour.quantity (mergeRequestedQuantity cartWithTwo 1 2 guestThree)) =
      [{ cartId := 1, recordId := 2, quantity := 4 }] :=
  ⟨rfl, by decide, by decide,
    ((mergeCart_caps_and_skips [stockFour] 9 1 cartWithTwo guestThree 2 stockFour).1
      rfl (by decide) (by decide) (by decide) (by decide)).1,
    by decide⟩

/-- Counterexample for C8 as stated: settling one of three copies
leaves remaining quantity 2, but the replacement remote listing is
created from a payload with no quantity — a single-copy listing — so
the listing is not "recreated with the remaining quantity". -/
theorem relist_quantity_counterexample :
    (handleCheckoutSessionCompleted envAllOk sess (some [liOne]) dbThree).result =
      HandleResult.completed ∧
    findRecord
      (handleCheckoutSessionCompleted envAllOk sess (some [liOne]) dbThree).db.records 1 =
      some { recThree with quantity := 2, discogsListingId := some 99 } ∧
    (handleCheckoutSessionCompleted envAllOk sess (some [liOne]) dbThree).ops =
      [DiscogsOp.deleteAttempt 77 true,
       DiscogsOp.createAttempt (mkAddListingPayload recThree) (some 99)] ∧
    implicitListingQuantity (mkAddListingPayload recThree) = 1 ∧
    ¬ implicitListingQuantity (mkAddListingPayload recThree) = 2 := by
  decide

end Rekords
